import Mathlib

/-!
Verification of the fee billing and payment reconciliation subsystem of the
sms_backend repository (Express + PostgreSQL controllers).

The controllers are shallowly embedded as pure functions over an explicit
database state.  Currency amounts (NUMERIC columns, read back through
`parseFloat`) are modelled as exact rationals; SQL timestamps are modelled as
an abstract `Nat` clock passed in as `now`.  Each controller returns the
resulting database state, a domain-level result, and the ordered list of
database events it issued (transaction control statements and table
reads/writes), so that transaction bracketing is itself a provable property.

Two generations of the line-item (fee_voucher_details) controllers and of
`updatePayment` coexist in the repository; both are embedded, the older ones
in namespace `Part013` (file src/unnamed/part_013) and the newer ones in
namespace `Part014` (file src/unnamed/part_014).  Top-level definitions come
from src/src/controllers/fees_controllers.js and
src/src/controllers/feeGenerationControllers.js.
-/

/-- A row of the students table (columns used by the billing subsystem). -/
structure Student where
  id : Nat
  class_id : Nat
  first_name : String
  last_name : String
deriving DecidableEq

/-- A row of the fee_structures table. -/
structure FeeStructure where
  id : Nat
  class_id : Nat
  fee_type_id : Nat
  amount : Rat
  frequency : String
  academic_year : String
deriving DecidableEq

/-- A calendar date (DATE column), split into fields so that the SQL
EXTRACT(MONTH ...) and EXTRACT(YEAR ...) operations are projections. -/
structure Date where
  year : Nat
  month : Nat
  day : Nat
deriving DecidableEq

/-- A row of the fee_vouchers table. -/
structure Voucher where
  id : Nat
  student_id : Nat
  due_date : Date
  paid_amount : Rat
  status : String
  updated_at : Nat
deriving DecidableEq

/-- A row of the fee_voucher_details table (one line item of a voucher). -/
structure VoucherDetail where
  id : Nat
  voucher_id : Nat
  fee_type_id : Nat
  amount : Rat
  created_at : Nat
deriving DecidableEq

/-- The database state seen by the billing controllers.  The `next_voucher_id`
and `next_detail_id` fields model the SERIAL id sequences. -/
structure DB where
  students : List Student
  fee_structures : List FeeStructure
  fee_vouchers : List Voucher
  fee_voucher_details : List VoucherDetail
  next_voucher_id : Nat
  next_detail_id : Nat
deriving DecidableEq

/-- Domain error kinds, one per distinct error response of the controllers. -/
inductive DomainErr where
  | conflict
  | notFound
  | overpayment
  | validation
  | internal
deriving DecidableEq

/-- Database events issued by a controller, in order: transaction control
statements and reads/writes of the four billing tables. -/
inductive Ev where
  | txBegin
  | txCommit
  | txRollback
  | readStudents
  | readStructures
  | readVouchers
  | readDetails
  | writeVouchers
  | writeDetails
deriving DecidableEq

/-- Outcome of one controller invocation: final database state, domain-level
result, and the ordered database events issued. -/
structure OpOut (α : Type) where
  db : DB
  res : Except DomainErr α
  ev : List Ev

/-- True exactly on successful results (HTTP 2xx paths). -/
def resOkB {α : Type} : Except DomainErr α → Bool
  | Except.ok _ => true
  | Except.error _ => false

/-- SELECT COALESCE(SUM(amount), 0) FROM fee_voucher_details WHERE
voucher_id = $1 (fees_controllers.js, updateVoucherStatus). -/
def voucherTotal (details : List VoucherDetail) (voucherId : Nat) : Rat :=
  ((details.filter fun d => d.voucher_id == voucherId).map VoucherDetail.amount).sum

/-- The status derivation of updateVoucherStatus (fees_controllers.js lines
24-27): "paid" if paid >= total and total > 0, else "partial" if paid > 0,
else "pending". -/
def deriveStatus (total paid : Rat) : String :=
  if paid ≥ total ∧ total > 0 then "paid"
  else if paid > 0 then "partial"
  else "pending"

/-- SELECT ... FROM fee_vouchers WHERE id = $1 : first row, if any. -/
def findVoucher (vs : List Voucher) (voucherId : Nat) : Option Voucher :=
  vs.find? fun v => v.id == voucherId

/-- The helper updateVoucherStatus(voucherId, client) of fees_controllers.js
(lines 4-36, identically in part_014 lines 6-34): reads the line-item total
and the voucher's paid_amount, then persists the derived status and a fresh
updated_at.  When the voucher row is absent the JavaScript dereferences
`rows[0].paid_amount` of an empty result and throws; that path is `none`. -/
def updateVoucherStatus (db : DB) (voucherId : Nat) (now : Nat) : Option DB :=
  match findVoucher db.fee_vouchers voucherId with
  | none => none
  | some v =>
    let total := voucherTotal db.fee_voucher_details voucherId
    some { db with fee_vouchers := db.fee_vouchers.map fun w =>
            if w.id == voucherId then
              { w with status := deriveStatus total v.paid_amount, updated_at := now }
            else w }

/-- The events issued by one successful run of updateVoucherStatus. -/
def updateVoucherStatusEv : List Ev := [Ev.readDetails, Ev.readVouchers, Ev.writeVouchers]

/-- The voucher row inserted by createVoucher: the INSERT names only
(student_id, due_date); paid_amount 0 and status pending are the column
defaults of the fee_vouchers table in the SQL schema dump kept in
src/package.json (paid_amount DECIMAL(10, 2) DEFAULT 0.00, status VARCHAR(20)
DEFAULT 'pending'), and updated_at takes the insertion-time default. -/
def newVoucherRow (db : DB) (student_id : Nat) (due_date : Date) (now : Nat) : Voucher :=
  { id := db.next_voucher_id, student_id := student_id, due_date := due_date,
    paid_amount := 0, status := "pending", updated_at := now }

/-- createVoucher of src/src/controllers/fees_controllers.js (lines 39-76):
BEGIN; duplicate check on (student_id, due_date); on duplicate it returns the
conflict response directly (issuing neither COMMIT nor ROLLBACK); otherwise it
inserts the voucher and commits.  The INSERT names only (student_id,
due_date); the remaining columns take the fee_vouchers table defaults of the
schema dump in src/package.json (paid_amount 0.00, status 'pending').  That
schema also declares CONSTRAINT unique_student_due_date UNIQUE (student_id,
due_date); in this sequential embedding the controller's own existence check
fires before the INSERT ever would, so the constraint adds nothing to model
here. -/
def createVoucher (db : DB) (student_id : Nat) (due_date : Date) (now : Nat) :
    OpOut Voucher :=
  if db.fee_vouchers.any fun v =>
      v.student_id == student_id && v.due_date.year == due_date.year &&
      v.due_date.month == due_date.month && v.due_date.day == due_date.day then
    ⟨db, Except.error DomainErr.conflict, [Ev.txBegin, Ev.readVouchers]⟩
  else
    ⟨{ db with fee_vouchers := db.fee_vouchers ++ [newVoucherRow db student_id due_date now],
               next_voucher_id := db.next_voucher_id + 1 },
     Except.ok (newVoucherRow db student_id due_date now),
     [Ev.txBegin, Ev.readVouchers, Ev.writeVouchers, Ev.txCommit]⟩

/-- UPDATE fee_vouchers SET paid_amount = $1 WHERE id = $2
(fees_controllers.js lines 140-145). -/
def payWrite (db : DB) (voucherId : Nat) (newPaid : Rat) : DB :=
  { db with fee_vouchers := db.fee_vouchers.map fun w =>
      if w.id == voucherId then { w with paid_amount := newPaid } else w }

/-- INSERT INTO fee_voucher_details ... of a single row (with the SERIAL
sequence advanced). -/
def insertDetailRow (db : DB) (d : VoucherDetail) : DB :=
  { db with fee_voucher_details := db.fee_voucher_details ++ [d],
            next_detail_id := db.next_detail_id + 1 }

/-- UPDATE fee_voucher_details SET voucher_id = $1, fee_type_id = $2,
amount = $3, created_at = CURRENT_TIMESTAMP WHERE id = $4. -/
def detailWrite (db : DB) (id voucher_id fee_type_id : Nat) (amount : Rat)
    (now : Nat) : DB :=
  { db with fee_voucher_details := db.fee_voucher_details.map fun d =>
      if d.id == id then
        { d with voucher_id := voucher_id, fee_type_id := fee_type_id,
                 amount := amount, created_at := now }
      else d }

/-- DELETE FROM fee_voucher_details WHERE id = $1. -/
def deleteDetailRow (db : DB) (id : Nat) : DB :=
  { db with fee_voucher_details := db.fee_voucher_details.filter fun d => !(d.id == id) }

/-- updatePayment of src/src/controllers/fees_controllers.js (lines 100-158):
BEGIN; SELECT paid_amount FOR UPDATE (not-found returns directly, transaction
left open); SELECT the line-item total; rejects when paid + amount > total
(again returning directly with the transaction open); otherwise persists the
new paid_amount, re-derives the status via updateVoucherStatus and commits.
This version has no check on the sign of `amount`. -/
def updatePayment (db : DB) (voucherId : Nat) (amount : Rat) (now : Nat) :
    OpOut Unit :=
  match findVoucher db.fee_vouchers voucherId with
  | none => ⟨db, Except.error DomainErr.notFound, [Ev.txBegin, Ev.readVouchers]⟩
  | some v =>
    if v.paid_amount + amount > voucherTotal db.fee_voucher_details voucherId then
      ⟨db, Except.error DomainErr.overpayment,
       [Ev.txBegin, Ev.readVouchers, Ev.readDetails]⟩
    else
      match updateVoucherStatus (payWrite db voucherId (v.paid_amount + amount))
          voucherId now with
      | none =>
        ⟨db, Except.error DomainErr.internal,
         [Ev.txBegin, Ev.readVouchers, Ev.readDetails, Ev.writeVouchers, Ev.txRollback]⟩
      | some db2 =>
        ⟨db2, Except.ok (),
         [Ev.txBegin, Ev.readVouchers, Ev.readDetails, Ev.writeVouchers] ++
           updateVoucherStatusEv ++ [Ev.txCommit]⟩

/-- deleteVoucher of src/src/controllers/fees_controllers.js (lines 178-203):
BEGIN; DELETE ... RETURNING; a missing voucher returns directly (transaction
left open); otherwise commits.  The voucher's line items are deleted with it
because fee_voucher_details.voucher_id REFERENCES fee_vouchers(id) ON DELETE
CASCADE in the schema dump kept in src/package.json. -/
def deleteVoucher (db : DB) (voucherId : Nat) : OpOut Unit :=
  if db.fee_vouchers.any fun v => v.id == voucherId then
    ⟨{ db with fee_vouchers := db.fee_vouchers.filter fun v => !(v.id == voucherId),
               fee_voucher_details :=
                 db.fee_voucher_details.filter fun d => !(d.voucher_id == voucherId) },
     Except.ok (), [Ev.txBegin, Ev.writeVouchers, Ev.txCommit]⟩
  else
    ⟨db, Except.error DomainErr.notFound, [Ev.txBegin, Ev.writeVouchers]⟩

namespace Part013

/-- createFeeVoucherDetail of src/unnamed/part_013 (lines 5-20): a single
INSERT outside any transaction; the owning voucher row is not touched and no
status re-derivation happens. -/
def createFeeVoucherDetail (db : DB) (voucher_id fee_type_id : Nat) (amount : Rat)
    (now : Nat) : OpOut VoucherDetail :=
  let d : VoucherDetail :=
    { id := db.next_detail_id, voucher_id := voucher_id, fee_type_id := fee_type_id,
      amount := amount, created_at := now }
  ⟨{ db with fee_voucher_details := db.fee_voucher_details ++ [d],
             next_detail_id := db.next_detail_id + 1 },
   Except.ok d, [Ev.writeDetails]⟩

/-- updateFeeVoucherDetail of src/unnamed/part_013 (lines 51-71): a single
UPDATE ... RETURNING outside any transaction; 404 when no row matches; the
owning voucher is not touched. -/
def updateFeeVoucherDetail (db : DB) (id voucher_id fee_type_id : Nat) (amount : Rat)
    (now : Nat) : OpOut VoucherDetail :=
  match db.fee_voucher_details.find? fun d => d.id == id with
  | none => ⟨db, Except.error DomainErr.notFound, [Ev.writeDetails]⟩
  | some d0 =>
    let d1 : VoucherDetail :=
      { d0 with voucher_id := voucher_id, fee_type_id := fee_type_id,
                amount := amount, created_at := now }
    ⟨{ db with fee_voucher_details := db.fee_voucher_details.map fun d =>
        if d.id == id then
          { d with voucher_id := voucher_id, fee_type_id := fee_type_id,
                   amount := amount, created_at := now }
        else d },
     Except.ok d1, [Ev.writeDetails]⟩

/-- deleteFeeVoucherDetail of src/unnamed/part_013 (lines 74-87): a single
DELETE ... RETURNING outside any transaction; 404 when no row matches; the
owning voucher is not touched. -/
def deleteFeeVoucherDetail (db : DB) (id : Nat) : OpOut Unit :=
  if db.fee_voucher_details.any fun d => d.id == id then
    ⟨{ db with fee_voucher_details := db.fee_voucher_details.filter fun d => !(d.id == id) },
     Except.ok (), [Ev.writeDetails]⟩
  else
    ⟨db, Except.error DomainErr.notFound, [Ev.writeDetails]⟩

end Part013

namespace Part014

/-- updatePayment of src/unnamed/part_014 (lines 107-165): the same
read-check-write sequence as the top-level updatePayment, but it first
rejects a missing, zero or non-positive amount (lines 114-116, the check
`!amount || amount <= 0`). -/
def updatePayment (db : DB) (voucherId : Nat) (amount : Rat) (now : Nat) :
    OpOut Unit :=
  if amount ≤ 0 then
    ⟨db, Except.error DomainErr.validation, [Ev.txBegin]⟩
  else
    match findVoucher db.fee_vouchers voucherId with
    | none => ⟨db, Except.error DomainErr.notFound, [Ev.txBegin, Ev.readVouchers]⟩
    | some v =>
      if v.paid_amount + amount > voucherTotal db.fee_voucher_details voucherId then
        ⟨db, Except.error DomainErr.overpayment,
         [Ev.txBegin, Ev.readVouchers, Ev.readDetails]⟩
      else
        match updateVoucherStatus (payWrite db voucherId (v.paid_amount + amount))
            voucherId now with
        | none =>
          ⟨db, Except.error DomainErr.internal,
           [Ev.txBegin, Ev.readVouchers, Ev.readDetails, Ev.writeVouchers, Ev.txRollback]⟩
        | some db2 =>
          ⟨db2, Except.ok (),
           [Ev.txBegin, Ev.readVouchers, Ev.readDetails, Ev.writeVouchers] ++
             updateVoucherStatusEv ++ [Ev.txCommit]⟩

/-- createFeeVoucherDetail of src/unnamed/part_014 (lines 354-389, the
"Updated fee_voucher_details controllers with status update"): BEGIN;
validation of voucher_id, fee_type_id and amount (a failure returns directly,
transaction left open); INSERT of the line item; re-derivation of the owning
voucher's status via updateVoucherStatus; COMMIT.  A missing owning voucher
makes updateVoucherStatus throw, which is caught and rolled back. -/
def createFeeVoucherDetail (db : DB) (voucher_id fee_type_id : Nat) (amount : Rat)
    (now : Nat) : OpOut VoucherDetail :=
  if voucher_id = 0 ∨ fee_type_id = 0 ∨ amount ≤ 0 then
    ⟨db, Except.error DomainErr.validation, [Ev.txBegin]⟩
  else
    let d : VoucherDetail :=
      { id := db.next_detail_id, voucher_id := voucher_id, fee_type_id := fee_type_id,
        amount := amount, created_at := now }
    match updateVoucherStatus (insertDetailRow db d) voucher_id now with
    | none =>
      ⟨db, Except.error DomainErr.internal,
       [Ev.txBegin, Ev.writeDetails, Ev.readDetails, Ev.readVouchers, Ev.txRollback]⟩
    | some db2 =>
      ⟨db2, Except.ok d,
       [Ev.txBegin, Ev.writeDetails] ++ updateVoucherStatusEv ++ [Ev.txCommit]⟩

/-- updateFeeVoucherDetail of src/unnamed/part_014 (lines 391-432): BEGIN;
validation (failure returns directly, transaction left open); UPDATE of the
line item by id, which may also change its voucher_id (404 when no row
matches, again returning directly); re-derivation of the status of the
voucher named by the request's voucher_id only; COMMIT. -/
def updateFeeVoucherDetail (db : DB) (id voucher_id fee_type_id : Nat) (amount : Rat)
    (now : Nat) : OpOut VoucherDetail :=
  if voucher_id = 0 ∨ fee_type_id = 0 ∨ amount ≤ 0 then
    ⟨db, Except.error DomainErr.validation, [Ev.txBegin]⟩
  else
    match db.fee_voucher_details.find? fun d => d.id == id with
    | none => ⟨db, Except.error DomainErr.notFound, [Ev.txBegin, Ev.writeDetails]⟩
    | some d0 =>
      let d1 : VoucherDetail :=
        { d0 with voucher_id := voucher_id, fee_type_id := fee_type_id,
                  amount := amount, created_at := now }
      match updateVoucherStatus (detailWrite db id voucher_id fee_type_id amount now)
          voucher_id now with
      | none =>
        ⟨db, Except.error DomainErr.internal,
         [Ev.txBegin, Ev.writeDetails, Ev.readDetails, Ev.readVouchers, Ev.txRollback]⟩
      | some db2 =>
        ⟨db2, Except.ok d1,
         [Ev.txBegin, Ev.writeDetails] ++ updateVoucherStatusEv ++ [Ev.txCommit]⟩

/-- deleteFeeVoucherDetail of src/unnamed/part_014 (lines 434-468): BEGIN;
SELECT the line item's voucher_id (404 when absent, returning directly with
the transaction open); DELETE the line item; re-derivation of that voucher's
status; COMMIT. -/
def deleteFeeVoucherDetail (db : DB) (id : Nat) (now : Nat) : OpOut Unit :=
  match db.fee_voucher_details.find? fun d => d.id == id with
  | none => ⟨db, Except.error DomainErr.notFound, [Ev.txBegin, Ev.readDetails]⟩
  | some d0 =>
    match updateVoucherStatus (deleteDetailRow db id) d0.voucher_id now with
    | none =>
      ⟨db, Except.error DomainErr.internal,
       [Ev.txBegin, Ev.readDetails, Ev.writeDetails, Ev.readDetails, Ev.readVouchers,
        Ev.txRollback]⟩
    | some db2 =>
      ⟨db2, Except.ok (),
       [Ev.txBegin, Ev.readDetails, Ev.writeDetails] ++ updateVoucherStatusEv ++
         [Ev.txCommit]⟩

end Part014

/-- The result row pushed for each newly created voucher by
generateMonthlyFees (feeGenerationControllers.js lines 116-125). -/
structure GenVoucher where
  voucher_id : Nat
  student_id : Nat
  student_name : String
  due_date : Date
  total_amount : Rat
deriving DecidableEq

/-- The regular-expression test `/^\d{4}-\d{4}$/.test(academic_year)` of
feeGenerationControllers.js line 21: four digits, a dash, four digits. -/
def validAcademicYear (s : String) : Bool :=
  let cs := s.toList
  cs.length == 9 && (cs.take 4).all Char.isDigit &&
    cs.get? 4 == some '-' && (cs.drop 5).all Char.isDigit

/-- `parseInt(academic_year.split("-")[0])` (line 33): the number denoted by
the four digits before the dash. -/
def yearOf (s : String) : Nat :=
  (s.toList.take 4).foldl (fun n c => n * 10 + (c.toNat - '0'.toNat)) 0

/-- True in the Gregorian calendar years JavaScript's Date uses. -/
def isLeapYear (y : Nat) : Bool :=
  (y % 4 == 0 && y % 100 != 0) || y % 400 == 0

/-- The day of month of `new Date(year, month, 0)` (line 34), which for a
1-based `month` between 1 and 12 is the last calendar day of that month. -/
def daysInMonth (y m : Nat) : Nat :=
  if m == 2 then (if isLeapYear y then 29 else 28)
  else if m == 4 || m == 6 || m == 9 || m == 11 then 30
  else 31

/-- SELECT fs.* FROM fee_structures fs JOIN fee_types ... WHERE fs.class_id =
$1 AND fs.academic_year = $2 AND fs.frequency = 'monthly'
(feeGenerationControllers.js lines 55-63). -/
def monthlyStructuresFor (structures : List FeeStructure) (class_id : Nat)
    (academic_year : String) : List FeeStructure :=
  structures.filter fun fs =>
    fs.class_id == class_id && fs.academic_year == academic_year &&
      fs.frequency == "monthly"

/-- SELECT id FROM fee_vouchers WHERE student_id = $1 AND EXTRACT(MONTH FROM
due_date) = $2 AND EXTRACT(YEAR FROM due_date) = $3, tested for non-emptiness
(lines 70-81). -/
def hasVoucherForPeriod (vs : List Voucher) (student_id m y : Nat) : Bool :=
  vs.any fun v =>
    v.student_id == student_id && v.due_date.month == m && v.due_date.year == y

/-- Accumulator of the per-student loop of generateMonthlyFees: current
database state, result rows collected so far, events issued so far. -/
structure GenState where
  db : DB
  out : List GenVoucher
  ev : List Ev

/-- One INSERT INTO fee_voucher_details per matching fee structure
(feeGenerationControllers.js lines 96-104). -/
def insertDetail (voucher_id : Nat) (now : Nat) (acc : DB × List Ev)
    (fs : FeeStructure) : DB × List Ev :=
  ({ acc.1 with
      fee_voucher_details := acc.1.fee_voucher_details ++
        [{ id := acc.1.next_detail_id, voucher_id := voucher_id,
           fee_type_id := fs.fee_type_id, amount := fs.amount, created_at := now }],
      next_detail_id := acc.1.next_detail_id + 1 },
   acc.2 ++ [Ev.writeDetails])

/-- The body of the per-student loop of generateMonthlyFees (lines 53-126):
look up the monthly structures of the student's class (skip when none), skip
when a voucher for (student, month, year) already exists, otherwise insert
the voucher with status pending and paid_amount 0, insert one line item per
structure, touch the voucher's updated_at, and push a result row whose total
is the sum of the structure amounts. -/
def genStep (academic_year : String) (m y : Nat) (dueDate : Date) (now : Nat)
    (st : GenState) (s : Student) : GenState :=
  let structures := monthlyStructuresFor st.db.fee_structures s.class_id academic_year
  let ev1 := st.ev ++ [Ev.readStructures]
  if structures.isEmpty then { st with ev := ev1 }
  else
    let ev2 := ev1 ++ [Ev.readVouchers]
    if hasVoucherForPeriod st.db.fee_vouchers s.id m y then { st with ev := ev2 }
    else
      let vid := st.db.next_voucher_id
      let v : Voucher :=
        { id := vid, student_id := s.id, due_date := dueDate,
          paid_amount := 0, status := "pending", updated_at := now }
      let db1 := { st.db with fee_vouchers := st.db.fee_vouchers ++ [v],
                              next_voucher_id := vid + 1 }
      let inserted := structures.foldl (insertDetail vid now)
        (db1, ev2 ++ [Ev.writeVouchers])
      let db3 := { inserted.1 with fee_vouchers := inserted.1.fee_vouchers.map fun w =>
        if w.id == vid then { w with updated_at := now } else w }
      { db := db3,
        out := st.out ++
          [{ voucher_id := vid, student_id := s.id,
             student_name := s.first_name ++ " " ++ s.last_name,
             due_date := dueDate,
             total_amount := structures.foldl (fun acc fs => acc + fs.amount) 0 }],
        ev := inserted.2 ++ [Ev.writeVouchers] }

/-- generateMonthlyFees of src/src/controllers/feeGenerationControllers.js
(lines 6-140): BEGIN; input validation (each failure returns directly, with
the transaction left open); due date = last day of the month in the year
taken from the first four characters of academic_year; the eligible students
(all, or those of class_id); 404 when none (again returning directly);
otherwise the per-student loop runs and the batch commits. -/
def generateMonthlyFees (db : DB) (class_id : Option Nat) (academic_year : String)
    (month : Nat) (now : Nat) : OpOut (List GenVoucher) :=
  if academic_year = "" ∨ month = 0 then
    ⟨db, Except.error DomainErr.validation, [Ev.txBegin]⟩
  else if !validAcademicYear academic_year then
    ⟨db, Except.error DomainErr.validation, [Ev.txBegin]⟩
  else if month < 1 ∨ 12 < month then
    ⟨db, Except.error DomainErr.validation, [Ev.txBegin]⟩
  else
    let year := yearOf academic_year
    let dueDate : Date := { year := year, month := month, day := daysInMonth year month }
    let eligible : List Student := match class_id with
      | some cid => db.students.filter fun s => s.class_id == cid
      | none => db.students
    if eligible.isEmpty then
      ⟨db, Except.error DomainErr.notFound, [Ev.txBegin, Ev.readStudents]⟩
    else
      let fin := eligible.foldl (genStep academic_year month year dueDate now)
        ⟨db, [], [Ev.txBegin, Ev.readStudents]⟩
      ⟨fin.db, Except.ok fin.out, fin.ev ++ [Ev.txCommit]⟩

/-! ### Concrete database states used by scenario theorems and witnesses -/

/-- 2024-03-31, the last calendar day of March 2024. -/
def dd331 : Date := ⟨2024, 3, 31⟩

/-- The academic year label used by the spec's scenarios. -/
def ay2425 : String := "2024-2025"

/-- A malformed academic year label (two-digit second year). -/
def ayBad : String := "2024-25"

/-- The scenario state of spec section 8: two students in class 1 and two
monthly fee structures (tuition 5000, library 200) for class 1 in 2024-2025;
no vouchers yet. -/
def db7 : DB :=
  { students := [
      { id := 1, class_id := 1, first_name := "Ali", last_name := "Khan" },
      { id := 2, class_id := 1, first_name := "Sara", last_name := "Ahmed" }],
    fee_structures := [
      { id := 1, class_id := 1, fee_type_id := 1, amount := 5000,
        frequency := "monthly", academic_year := ay2425 },
      { id := 2, class_id := 1, fee_type_id := 2, amount := 200,
        frequency := "monthly", academic_year := ay2425 }],
    fee_vouchers := [], fee_voucher_details := [],
    next_voucher_id := 100, next_detail_id := 500 }

/-- A voucher with total 500 and paid_amount 400 (the spec's overpayment
example). -/
def dbPaid400 : DB :=
  { students := [], fee_structures := [],
    fee_vouchers := [
      { id := 1, student_id := 1, due_date := dd331, paid_amount := 400,
        status := "partial", updated_at := 0 }],
    fee_voucher_details := [
      { id := 1, voucher_id := 1, fee_type_id := 1, amount := 500, created_at := 0 }],
    next_voucher_id := 2, next_detail_id := 2 }

/-- A voucher with two line items of 100 each and paid_amount 100; its stored
status "partial" agrees with the derivation. -/
def dbTwoItems : DB :=
  { students := [], fee_structures := [],
    fee_vouchers := [
      { id := 1, student_id := 1, due_date := dd331, paid_amount := 100,
        status := "partial", updated_at := 3 }],
    fee_voucher_details := [
      { id := 1, voucher_id := 1, fee_type_id := 1, amount := 100, created_at := 0 },
      { id := 2, voucher_id := 1, fee_type_id := 1, amount := 100, created_at := 0 }],
    next_voucher_id := 2, next_detail_id := 3 }

/-- A fully paid voucher (one line item of 100, paid_amount 100, status
"paid", consistent with the derivation). -/
def dbPaidUp : DB :=
  { students := [], fee_structures := [],
    fee_vouchers := [
      { id := 1, student_id := 1, due_date := dd331, paid_amount := 100,
        status := "paid", updated_at := 3 }],
    fee_voucher_details := [
      { id := 1, voucher_id := 1, fee_type_id := 1, amount := 100, created_at := 0 }],
    next_voucher_id := 2, next_detail_id := 2 }

/-- An unpaid voucher with a single line item of 100. -/
def dbPending100 : DB :=
  { students := [], fee_structures := [],
    fee_vouchers := [
      { id := 1, student_id := 1, due_date := dd331, paid_amount := 0,
        status := "pending", updated_at := 0 }],
    fee_voucher_details := [
      { id := 1, voucher_id := 1, fee_type_id := 1, amount := 100, created_at := 0 }],
    next_voucher_id := 2, next_detail_id := 2 }

/-- Two vouchers: voucher 1 (student 1) with two line items of 100 and
paid_amount 100 ("partial", consistent), voucher 2 (student 2) with no line
items and paid_amount 0 ("pending", consistent). -/
def dbReparent : DB :=
  { students := [], fee_structures := [],
    fee_vouchers := [
      { id := 1, student_id := 1, due_date := dd331, paid_amount := 100,
        status := "partial", updated_at := 0 },
      { id := 2, student_id := 2, due_date := dd331, paid_amount := 0,
        status := "pending", updated_at := 0 }],
    fee_voucher_details := [
      { id := 1, voucher_id := 1, fee_type_id := 1, amount := 100, created_at := 0 },
      { id := 2, voucher_id := 1, fee_type_id := 1, amount := 100, created_at := 0 }],
    next_voucher_id := 3, next_detail_id := 3 }

/-! ### C2: overpayment rejection -/

/-- C2: for every voucher and every payment amount, if the voucher's current
paid_amount plus the amount exceeds the sum of its line items, updatePayment
fails with the overpayment error and the database — hence the voucher's
paid_amount, status and updated_at — is unchanged. -/
theorem updatePayment_overpayment_rejected (db : DB) (voucherId : Nat) (amount : Rat)
    (now : Nat) (v : Voucher)
    (hv : findVoucher db.fee_vouchers voucherId = some v)
    (hover : v.paid_amount + amount > voucherTotal db.fee_voucher_details voucherId) :
    (updatePayment db voucherId amount now).res = Except.error DomainErr.overpayment ∧
    (updatePayment db voucherId amount now).db = db := by
  simp only [updatePayment, hv]
  rw [if_pos hover]
  exact ⟨rfl, rfl⟩

/-- Witness for C2: the spec's own example — total 500, paid 400, payment of
150 is rejected as overpayment and paid_amount stays 400. -/
theorem updatePayment_overpayment_rejected_witness :
    (updatePayment dbPaid400 1 150 9).res = Except.error DomainErr.overpayment ∧
    (updatePayment dbPaid400 1 150 9).db = dbPaid400 :=
  updatePayment_overpayment_rejected dbPaid400 1 150 9
    { id := 1, student_id := 1, due_date := dd331, paid_amount := 400,
      status := "partial", updated_at := 0 }
    rfl (by norm_num [voucherTotal, dbPaid400])

/-! ### C6: duplicate voucher creation is rejected -/

/-- C6: when a voucher already exists for (student_id, due_date), a second
createVoucher call for the same pair fails with the conflict error and the
database is unchanged — no row inserted, nothing overwritten. -/
theorem createVoucher_conflict (db : DB) (sid : Nat) (dd : Date) (now : Nat)
    (h : ∃ v ∈ db.fee_vouchers, v.student_id = sid ∧ v.due_date = dd) :
    (createVoucher db sid dd now).res = Except.error DomainErr.conflict ∧
    (createVoucher db sid dd now).db = db := by
  obtain ⟨v, hmem, hsid, hdd⟩ := h
  have hany : (db.fee_vouchers.any fun w =>
      w.student_id == sid && w.due_date.year == dd.year &&
      w.due_date.month == dd.month && w.due_date.day == dd.day) = true :=
    List.any_eq_true.mpr ⟨v, hmem, by simp [hsid, hdd]⟩
  simp only [createVoucher, hany]
  exact ⟨rfl, rfl⟩

/-- Witness for C6: student 1 already has a voucher due 2024-03-31 in
dbPaid400, so creating another one for the same pair is rejected. -/
theorem createVoucher_conflict_witness :
    (createVoucher dbPaid400 1 dd331 9).res = Except.error DomainErr.conflict ∧
    (createVoucher dbPaid400 1 dd331 9).db = dbPaid400 :=
  createVoucher_conflict dbPaid400 1 dd331 9
    ⟨{ id := 1, student_id := 1, due_date := dd331, paid_amount := 400,
       status := "partial", updated_at := 0 }, by simp [dbPaid400], rfl, rfl⟩

/-! ### Evaluation helpers for the concrete scenario states -/

lemma validAcademicYear_ay2425 : validAcademicYear ay2425 = true := by decide

lemma validAcademicYear_ayBad : validAcademicYear ayBad = false := by decide

lemma yearOf_ay2425 : yearOf ay2425 = 2024 := by decide

lemma ay2425_ne_empty : ¬ (ay2425 = "") := by decide

lemma ayBad_ne_empty : ¬ (ayBad = "") := by decide

/-! ### C7: the bulk-generation scenario -/

/-- C7: with monthly structures tuition 5000 and library 200 for class 1 in
2024-2025, generateMonthlyFees over a class of two students (no existing
vouchers) creates exactly two vouchers with due date 2024-03-31 (last day of
month 3 of the year taken from the first four characters of the academic
year), paid_amount 0 and status pending, each with exactly two line items
whose amounts are copied verbatim from the structures and sum to 5200. -/
theorem generateMonthlyFees_scenario :
    (generateMonthlyFees db7 (some 1) ay2425 3 0).res = Except.ok [
      { voucher_id := 100, student_id := 1, student_name := "Ali Khan",
        due_date := ⟨2024, 3, 31⟩, total_amount := 5200 },
      { voucher_id := 101, student_id := 2, student_name := "Sara Ahmed",
        due_date := ⟨2024, 3, 31⟩, total_amount := 5200 }] ∧
    (generateMonthlyFees db7 (some 1) ay2425 3 0).db.fee_vouchers = [
      { id := 100, student_id := 1, due_date := ⟨2024, 3, 31⟩, paid_amount := 0,
        status := "pending", updated_at := 0 },
      { id := 101, student_id := 2, due_date := ⟨2024, 3, 31⟩, paid_amount := 0,
        status := "pending", updated_at := 0 }] ∧
    (generateMonthlyFees db7 (some 1) ay2425 3 0).db.fee_voucher_details = [
      { id := 500, voucher_id := 100, fee_type_id := 1, amount := 5000, created_at := 0 },
      { id := 501, voucher_id := 100, fee_type_id := 2, amount := 200, created_at := 0 },
      { id := 502, voucher_id := 101, fee_type_id := 1, amount := 5000, created_at := 0 },
      { id := 503, voucher_id := 101, fee_type_id := 2, amount := 200, created_at := 0 }] ∧
    voucherTotal (generateMonthlyFees db7 (some 1) ay2425 3 0).db.fee_voucher_details 100
      = 5200 ∧
    voucherTotal (generateMonthlyFees db7 (some 1) ay2425 3 0).db.fee_voucher_details 101
      = 5200 := by
  norm_num [generateMonthlyFees, genStep, db7, validAcademicYear_ay2425, yearOf_ay2425,
    ay2425_ne_empty, daysInMonth, isLeapYear, monthlyStructuresFor, hasVoucherForPeriod,
    insertDetail, voucherTotal, List.foldl]
  refine ⟨?_, ?_⟩ <;> decide

/-! ### C8: validation happens only after BEGIN -/

/-- C8 counterexample: with month 13 (well-formed year label) and with the
malformed label 2024-25, generateMonthlyFees does fail with a validation
error, but a BEGIN has already been issued on that path, contradicting the
claim that no transaction begin happens before validation. -/
theorem generateMonthlyFees_begins_before_validation :
    ((generateMonthlyFees db7 none ay2425 13 0).res = Except.error DomainErr.validation ∧
      Ev.txBegin ∈ (generateMonthlyFees db7 none ay2425 13 0).ev) ∧
    ((generateMonthlyFees db7 none ayBad 3 0).res = Except.error DomainErr.validation ∧
      Ev.txBegin ∈ (generateMonthlyFees db7 none ayBad 3 0).ev) := by
  norm_num [generateMonthlyFees, validAcademicYear_ay2425, validAcademicYear_ayBad,
    ay2425_ne_empty, ayBad_ne_empty]

/-- C8 amended: on any invalid input (empty or malformed academic year,
missing or out-of-range month) generateMonthlyFees fails with a validation
error, leaves the database unchanged, and issues no table read or write — but
the transaction BEGIN has already been issued (and is left open). -/
theorem generateMonthlyFees_invalid_input (db : DB) (cid : Option Nat) (ay : String)
    (m now : Nat)
    (h : ay = "" ∨ m = 0 ∨ validAcademicYear ay = false ∨ m < 1 ∨ 12 < m) :
    (generateMonthlyFees db cid ay m now).res = Except.error DomainErr.validation ∧
    (generateMonthlyFees db cid ay m now).db = db ∧
    (generateMonthlyFees db cid ay m now).ev = [Ev.txBegin] := by
  by_cases h1 : ay = "" ∨ m = 0
  · simp only [generateMonthlyFees, if_pos h1]
    refine ⟨?_, ?_, ?_⟩ <;> trivial
  · by_cases h2 : validAcademicYear ay
    · have h3 : m < 1 ∨ 12 < m := by
        rcases h with h | h | h | h | h
        · exact absurd (Or.inl h) h1
        · exact absurd (Or.inr h) h1
        · rw [h2] at h; cases h
        · exact Or.inl h
        · exact Or.inr h
      simp only [generateMonthlyFees, if_neg h1, h2, Bool.not_true, Bool.false_eq_true,
        if_false, if_pos h3]
      refine ⟨?_, ?_, ?_⟩ <;> trivial
    · simp only [generateMonthlyFees, if_neg h1, eq_false_of_ne_true h2, Bool.not_false,
        if_true]
      refine ⟨?_, ?_, ?_⟩ <;> trivial

/-- Witness for the amended C8: the malformed label 2024-25 with month 3. -/
theorem generateMonthlyFees_invalid_input_witness :
    (generateMonthlyFees dbPaid400 none ayBad 3 7).res = Except.error DomainErr.validation ∧
    (generateMonthlyFees dbPaid400 none ayBad 3 7).db = dbPaid400 ∧
    (generateMonthlyFees dbPaid400 none ayBad 3 7).ev = [Ev.txBegin] :=
  generateMonthlyFees_invalid_input dbPaid400 none ayBad 3 7
    (Or.inr (Or.inr (Or.inl validAcademicYear_ayBad)))

/-! ### C9: transactions are not closed on early-return paths -/

/-- C9: each of the four transactional controllers has an execution path that
issues BEGIN and then returns an error response with neither COMMIT nor
ROLLBACK — the duplicate-voucher path of createVoucher, the overpayment path
of updatePayment, the not-found path of deleteVoucher, and the
invalid-month path of generateMonthlyFees. -/
theorem transactions_left_open_on_early_return :
    ((createVoucher dbPaid400 1 dd331 9).res = Except.error DomainErr.conflict ∧
      (createVoucher dbPaid400 1 dd331 9).ev = [Ev.txBegin, Ev.readVouchers] ∧
      Ev.txCommit ∉ (createVoucher dbPaid400 1 dd331 9).ev ∧
      Ev.txRollback ∉ (createVoucher dbPaid400 1 dd331 9).ev) ∧
    ((updatePayment dbPaid400 1 200 9).res = Except.error DomainErr.overpayment ∧
      (updatePayment dbPaid400 1 200 9).ev = [Ev.txBegin, Ev.readVouchers, Ev.readDetails] ∧
      Ev.txCommit ∉ (updatePayment dbPaid400 1 200 9).ev ∧
      Ev.txRollback ∉ (updatePayment dbPaid400 1 200 9).ev) ∧
    ((deleteVoucher dbPaid400 77).res = Except.error DomainErr.notFound ∧
      (deleteVoucher dbPaid400 77).ev = [Ev.txBegin, Ev.writeVouchers] ∧
      Ev.txCommit ∉ (deleteVoucher dbPaid400 77).ev ∧
      Ev.txRollback ∉ (deleteVoucher dbPaid400 77).ev) ∧
    ((generateMonthlyFees db7 none ay2425 13 0).res = Except.error DomainErr.validation ∧
      (generateMonthlyFees db7 none ay2425 13 0).ev = [Ev.txBegin] ∧
      Ev.txCommit ∉ (generateMonthlyFees db7 none ay2425 13 0).ev ∧
      Ev.txRollback ∉ (generateMonthlyFees db7 none ay2425 13 0).ev) := by
  norm_num [createVoucher, updatePayment, deleteVoucher, generateMonthlyFees,
    dbPaid400, db7, dd331, findVoucher, voucherTotal,
    validAcademicYear_ay2425, ay2425_ne_empty]
  decide

/-! ### Counterexamples: stale statuses and decreasing payments -/

/-- C1 counterexample: deleting a line item through the part_013 controller
(the module exporting exactly the functions the fee_voucher_details routes
import) succeeds but leaves the voucher row untouched, so the persisted
status "partial" no longer equals the derivation, which now yields "paid". -/
theorem status_invariant_broken_by_line_item_delete :
    (Part013.deleteFeeVoucherDetail dbTwoItems 2).res = Except.ok () ∧
    findVoucher (Part013.deleteFeeVoucherDetail dbTwoItems 2).db.fee_vouchers 1 =
      some { id := 1, student_id := 1, due_date := dd331, paid_amount := 100,
             status := "partial", updated_at := 3 } ∧
    deriveStatus
      (voucherTotal (Part013.deleteFeeVoucherDetail dbTwoItems 2).db.fee_voucher_details 1)
      100 = "paid" ∧
    ("partial" : String) ≠ "paid" := by
  refine ⟨by norm_num [Part013.deleteFeeVoucherDetail, dbTwoItems], ?_, ?_, by decide⟩
  · norm_num [Part013.deleteFeeVoucherDetail, dbTwoItems, findVoucher, dd331]
  · norm_num [Part013.deleteFeeVoucherDetail, dbTwoItems, voucherTotal, deriveStatus]

/-- C4 counterexample: adding a line item through the part_013 controller
performs the insert alone — no transaction, no status re-derivation and no
updated_at refresh: the voucher keeps status "paid" and updated_at 3 even
though the derivation over the new line-item set yields "partial". -/
theorem line_item_create_skips_status_derivation :
    (Part013.createFeeVoucherDetail dbPaidUp 1 2 100 9).res =
      Except.ok { id := 2, voucher_id := 1, fee_type_id := 2, amount := 100,
                  created_at := 9 } ∧
    findVoucher (Part013.createFeeVoucherDetail dbPaidUp 1 2 100 9).db.fee_vouchers 1 =
      some { id := 1, student_id := 1, due_date := dd331, paid_amount := 100,
             status := "paid", updated_at := 3 } ∧
    deriveStatus
      (voucherTotal
        (Part013.createFeeVoucherDetail dbPaidUp 1 2 100 9).db.fee_voucher_details 1)
      100 = "partial" ∧
    ("paid" : String) ≠ "partial" := by
  refine ⟨by norm_num [Part013.createFeeVoucherDetail, dbPaidUp], ?_, ?_, by decide⟩
  · norm_num [Part013.createFeeVoucherDetail, dbPaidUp, findVoucher, dd331]
  · norm_num [Part013.createFeeVoucherDetail, dbPaidUp, voucherTotal, deriveStatus]

/-- C5 counterexample: updatePayment (fees_controllers.js) accepts a negative
amount — on a voucher with paid_amount 400 a payment of -50 succeeds and
persists paid_amount 350, strictly below the previous 400. -/
theorem updatePayment_decreases_paid_amount :
    (updatePayment dbPaid400 1 (-50) 9).res = Except.ok () ∧
    findVoucher (updatePayment dbPaid400 1 (-50) 9).db.fee_vouchers 1 =
      some { id := 1, student_id := 1, due_date := dd331, paid_amount := 350,
             status := "partial", updated_at := 9 } ∧
    (350 : Rat) < 400 := by
  refine ⟨?_, ?_, by norm_num⟩
  · norm_num [updatePayment, payWrite, dbPaid400, findVoucher, voucherTotal,
      updateVoucherStatus, deriveStatus]
  · norm_num [updatePayment, payWrite, dbPaid400, findVoucher, voucherTotal,
      updateVoucherStatus, deriveStatus, dd331]

/-! ### The status derivation as a persisted invariant -/

/-- The stored status of the voucher (if present) equals the derivation over
its current line items and paid_amount. -/
def statusOkB (db : DB) (voucherId : Nat) : Bool :=
  match findVoucher db.fee_vouchers voucherId with
  | none => true
  | some v =>
    v.status == deriveStatus (voucherTotal db.fee_voucher_details voucherId) v.paid_amount

/-- As statusOkB, and additionally the stored updated_at is the current
clock. -/
def statusFreshOkB (db : DB) (voucherId now : Nat) : Bool :=
  match findVoucher db.fee_vouchers voucherId with
  | none => true
  | some v =>
    (v.status == deriveStatus (voucherTotal db.fee_voucher_details voucherId) v.paid_amount)
      && (v.updated_at == now)

lemma statusOkB_of_fresh (db : DB) (voucherId now : Nat)
    (h : statusFreshOkB db voucherId now = true) : statusOkB db voucherId = true := by
  unfold statusFreshOkB at h
  unfold statusOkB
  cases hf : findVoucher db.fee_vouchers voucherId with
  | none => rfl
  | some v =>
    rw [hf] at h
    simp only [Bool.and_eq_true] at h
    exact h.1

lemma findVoucher_map_of_id (vs : List Voucher) (searchId : Nat) (f : Voucher → Voucher)
    (hf : ∀ w, (f w).id = w.id) :
    findVoucher (vs.map f) searchId = (findVoucher vs searchId).map f := by
  unfold findVoucher
  induction vs with
  | nil => rfl
  | cons a as ih =>
    by_cases h : (a.id == searchId) = true
    · have h2 : ((f a).id == searchId) = true := by rw [hf a]; exact h
      rw [List.map_cons, List.find?_cons_of_pos (List.map f as) h2,
        List.find?_cons_of_pos as h]
      rfl
    · have h2 : ¬ ((f a).id == searchId) = true := by rw [hf a]; exact h
      rw [List.map_cons, List.find?_cons_of_neg (List.map f as) h2,
        List.find?_cons_of_neg as h]
      exact ih

lemma find?_append_of_none {p : Voucher → Bool} (l1 l2 : List Voucher)
    (h : ∀ a ∈ l1, p a = false) : (l1 ++ l2).find? p = l2.find? p := by
  induction l1 with
  | nil => rfl
  | cons a as ih =>
    rw [List.cons_append,
      List.find?_cons_of_neg _ (by rw [h a (List.mem_cons_self a as)]; exact Bool.false_ne_true),
      ih fun b hb => h b (List.mem_cons_of_mem a hb)]

lemma findVoucher_found_id (vs : List Voucher) (searchId : Nat) (v : Voucher)
    (h : findVoucher vs searchId = some v) : v.id = searchId := by
  unfold findVoucher at h
  have hp := List.find?_some h
  simpa using hp

/-- What a successful updateVoucherStatus does: it changes nothing but the
target voucher's row, whose status becomes the derivation over the unchanged
line items and whose updated_at becomes the current clock. -/
lemma updateVoucherStatus_some (db : DB) (voucherId now : Nat) (db2 : DB)
    (h : updateVoucherStatus db voucherId now = some db2) :
    db2.students = db.students ∧
    db2.fee_structures = db.fee_structures ∧
    db2.fee_voucher_details = db.fee_voucher_details ∧
    db2.next_voucher_id = db.next_voucher_id ∧
    db2.next_detail_id = db.next_detail_id ∧
    (∀ wid, wid ≠ voucherId →
      findVoucher db2.fee_vouchers wid = findVoucher db.fee_vouchers wid) ∧
    (∀ v1, findVoucher db.fee_vouchers voucherId = some v1 →
      findVoucher db2.fee_vouchers voucherId =
        some { v1 with
          status := deriveStatus (voucherTotal db.fee_voucher_details voucherId)
                      v1.paid_amount,
          updated_at := now }) := by
  unfold updateVoucherStatus at h
  cases hf : findVoucher db.fee_vouchers voucherId with
  | none => rw [hf] at h; cases h
  | some v =>
    rw [hf] at h
    simp only [Option.some.injEq] at h
    subst h
    have hfid : ∀ w : Voucher,
        ((fun w => if w.id == voucherId then
            { w with status := deriveStatus (voucherTotal db.fee_voucher_details voucherId)
                       v.paid_amount, updated_at := now }
          else w) w).id = w.id := by
      intro w
      by_cases hw : (w.id == voucherId) = true
      · simp [hw]
      · simp [hw]
    refine ⟨rfl, rfl, rfl, rfl, rfl, ?_, ?_⟩
    · intro wid hwid
      show findVoucher (db.fee_vouchers.map _) wid = _
      rw [findVoucher_map_of_id _ _ _ hfid]
      cases hg : findVoucher db.fee_vouchers wid with
      | none => rfl
      | some w =>
        have hid : w.id = wid := findVoucher_found_id _ _ _ hg
        simp [hid, hwid]
    · intro v1 hv1
      have h12 : v = v1 := by simpa using hv1
      subst h12
      show findVoucher (db.fee_vouchers.map _) voucherId = _
      rw [findVoucher_map_of_id _ _ _ hfid]
      rw [hf]
      have hvid : v.id = voucherId := findVoucher_found_id _ _ _ hf
      simp [hvid]

lemma updateVoucherStatus_statusFresh (db : DB) (vid now : Nat) (db2 : DB)
    (h : updateVoucherStatus db vid now = some db2) :
    statusFreshOkB db2 vid now = true := by
  obtain ⟨-, -, hdet, -, -, -, hfind⟩ := updateVoucherStatus_some _ _ _ _ h
  have hex : ∃ v, findVoucher db.fee_vouchers vid = some v := by
    unfold updateVoucherStatus at h
    cases hf : findVoucher db.fee_vouchers vid with
    | none => rw [hf] at h; cases h
    | some v => exact ⟨v, rfl⟩
  obtain ⟨v, hv⟩ := hex
  have h2 := hfind v hv
  unfold statusFreshOkB
  rw [h2, hdet]
  simp

lemma findVoucher_none_of (vs : List Voucher) (searchId : Nat)
    (h : ∀ w ∈ vs, w.id ≠ searchId) : findVoucher vs searchId = none := by
  unfold findVoucher
  rw [List.find?_eq_none]
  intro a ha
  simp [h a ha]

/-- What a successful updatePayment does to the target voucher: paid_amount
is increased by the payment amount and the status and updated_at are
re-derived, within a single BEGIN/COMMIT bracket. -/
lemma updatePayment_ok (db : DB) (vid : Nat) (amt : Rat) (now : Nat) (v : Voucher)
    (hv : findVoucher db.fee_vouchers vid = some v)
    (hok : resOkB (updatePayment db vid amt now).res = true) :
    findVoucher (updatePayment db vid amt now).db.fee_vouchers vid =
      some { v with paid_amount := v.paid_amount + amt,
                    status := deriveStatus
                      (voucherTotal db.fee_voucher_details vid) (v.paid_amount + amt),
                    updated_at := now } ∧
    statusFreshOkB (updatePayment db vid amt now).db vid now = true ∧
    (updatePayment db vid amt now).ev =
      [Ev.txBegin, Ev.readVouchers, Ev.readDetails, Ev.writeVouchers,
       Ev.readDetails, Ev.readVouchers, Ev.writeVouchers, Ev.txCommit] := by
  simp only [updatePayment, hv] at hok ⊢
  by_cases hov : v.paid_amount + amt > voucherTotal db.fee_voucher_details vid
  · rw [if_pos hov] at hok
    simp [resOkB] at hok
  · rw [if_neg hov] at hok ⊢
    cases hu : updateVoucherStatus (payWrite db vid (v.paid_amount + amt)) vid now with
    | none =>
      rw [hu] at hok
      simp [resOkB] at hok
    | some db2 =>
      obtain ⟨-, -, hdet, -, -, -, hfind⟩ := updateVoucherStatus_some _ _ _ _ hu
      have hpw : findVoucher (payWrite db vid (v.paid_amount + amt)).fee_vouchers vid =
          some { v with paid_amount := v.paid_amount + amt } := by
        unfold payWrite
        show findVoucher (db.fee_vouchers.map _) vid = _
        rw [findVoucher_map_of_id _ _ _ (fun w => by
          by_cases hw : (w.id == vid) = true
          · simp [hw]
          · simp [hw]), hv]
        have hvid : v.id = vid := findVoucher_found_id _ _ _ hv
        simp [hvid]
      have h2 := hfind _ hpw
      exact ⟨h2, updateVoucherStatus_statusFresh _ _ _ _ hu, rfl⟩

/-- A freshly created voucher satisfies the status derivation (pending with
paid_amount 0), provided the SERIAL id is really fresh: no existing voucher
row carries it and no orphaned line item references it. -/
lemma createVoucher_statusOk (db : DB) (sid : Nat) (dd : Date) (now : Nat)
    (hvf : ∀ w ∈ db.fee_vouchers, w.id ≠ db.next_voucher_id)
    (hdf : ∀ d ∈ db.fee_voucher_details, d.voucher_id ≠ db.next_voucher_id) :
    statusOkB (createVoucher db sid dd now).db db.next_voucher_id = true := by
  have htot : voucherTotal db.fee_voucher_details db.next_voucher_id = 0 := by
    unfold voucherTotal
    have hnil : db.fee_voucher_details.filter
        (fun d => d.voucher_id == db.next_voucher_id) = [] := by
      rw [List.filter_eq_nil_iff]
      intro a ha
      simp [hdf a ha]
    rw [hnil]
    rfl
  have hpending : deriveStatus (voucherTotal db.fee_voucher_details db.next_voucher_id) 0
      = "pending" := by
    rw [htot]
    norm_num [deriveStatus]
  unfold createVoucher
  by_cases h : (db.fee_vouchers.any fun v =>
      v.student_id == sid && v.due_date.year == dd.year &&
      v.due_date.month == dd.month && v.due_date.day == dd.day) = true
  · rw [if_pos h]
    show statusOkB db _ = true
    unfold statusOkB
    rw [findVoucher_none_of _ _ hvf]
  · rw [if_neg h]
    have hfind : findVoucher
        (db.fee_vouchers ++ [newVoucherRow db sid dd now]) db.next_voucher_id =
        some (newVoucherRow db sid dd now) := by
      unfold findVoucher
      rw [find?_append_of_none _ _ (fun a ha => by simp [hvf a ha])]
      simp [newVoucherRow]
    show statusOkB _ db.next_voucher_id = true
    unfold statusOkB
    rw [hfind]
    simp [newVoucherRow, hpending]

/-- What a successful part_014 createFeeVoucherDetail does: the owning
voucher's status and updated_at are re-derived and persisted, inside a single
BEGIN/COMMIT bracket together with the line-item insert. -/
lemma createFeeVoucherDetail_ok (db : DB) (vid ft : Nat) (amt : Rat) (now : Nat)
    (hok : resOkB (Part014.createFeeVoucherDetail db vid ft amt now).res = true) :
    statusFreshOkB (Part014.createFeeVoucherDetail db vid ft amt now).db vid now = true ∧
    (Part014.createFeeVoucherDetail db vid ft amt now).ev =
      [Ev.txBegin, Ev.writeDetails, Ev.readDetails, Ev.readVouchers, Ev.writeVouchers,
       Ev.txCommit] := by
  simp only [Part014.createFeeVoucherDetail] at hok ⊢
  by_cases hval : vid = 0 ∨ ft = 0 ∨ amt ≤ 0
  · rw [if_pos hval] at hok
    simp [resOkB] at hok
  · rw [if_neg hval] at hok ⊢
    cases hu : updateVoucherStatus (insertDetailRow db
        { id := db.next_detail_id, voucher_id := vid, fee_type_id := ft,
          amount := amt, created_at := now }) vid now with
    | none =>
      rw [hu] at hok
      simp [resOkB] at hok
    | some db2 =>
      exact ⟨updateVoucherStatus_statusFresh _ _ _ _ hu, rfl⟩

/-- What a successful part_014 updateFeeVoucherDetail does: the status and
updated_at of the voucher named by the request's voucher_id are re-derived
and persisted, inside a single BEGIN/COMMIT bracket with the line-item
update. -/
lemma updateFeeVoucherDetail_ok (db : DB) (id vid ft : Nat) (amt : Rat) (now : Nat)
    (hok : resOkB (Part014.updateFeeVoucherDetail db id vid ft amt now).res = true) :
    statusFreshOkB (Part014.updateFeeVoucherDetail db id vid ft amt now).db vid now = true ∧
    (Part014.updateFeeVoucherDetail db id vid ft amt now).ev =
      [Ev.txBegin, Ev.writeDetails, Ev.readDetails, Ev.readVouchers, Ev.writeVouchers,
       Ev.txCommit] := by
  simp only [Part014.updateFeeVoucherDetail] at hok ⊢
  by_cases hval : vid = 0 ∨ ft = 0 ∨ amt ≤ 0
  · rw [if_pos hval] at hok
    simp [resOkB] at hok
  · rw [if_neg hval] at hok ⊢
    cases hd : db.fee_voucher_details.find? fun d => d.id == id with
    | none =>
      rw [hd] at hok
      simp [resOkB] at hok
    | some d0 =>
      rw [hd] at hok
      cases hu : updateVoucherStatus (detailWrite db id vid ft amt now) vid now with
      | none =>
        rw [hu] at hok
        simp [resOkB] at hok
      | some db2 =>
        exact ⟨updateVoucherStatus_statusFresh _ _ _ _ hu, rfl⟩

/-- What a successful part_014 deleteFeeVoucherDetail does: the status and
updated_at of the deleted line item's owning voucher are re-derived and
persisted, inside a single BEGIN/COMMIT bracket with the delete. -/
lemma deleteFeeVoucherDetail_ok (db : DB) (id now : Nat) (d0 : VoucherDetail)
    (hd : db.fee_voucher_details.find? (fun d => d.id == id) = some d0)
    (hok : resOkB (Part014.deleteFeeVoucherDetail db id now).res = true) :
    statusFreshOkB (Part014.deleteFeeVoucherDetail db id now).db d0.voucher_id now = true ∧
    (Part014.deleteFeeVoucherDetail db id now).ev =
      [Ev.txBegin, Ev.readDetails, Ev.writeDetails, Ev.readDetails, Ev.readVouchers,
       Ev.writeVouchers, Ev.txCommit] := by
  simp only [Part014.deleteFeeVoucherDetail, hd] at hok ⊢
  cases hu : updateVoucherStatus (deleteDetailRow db id) d0.voucher_id now with
  | none =>
    rw [hu] at hok
    simp [resOkB] at hok
  | some db2 =>
    exact ⟨updateVoucherStatus_statusFresh _ _ _ _ hu, rfl⟩

/-! ### C1 (amended), C4 (amended), C5 (amended), C10 -/

/-- C1 amended: the vouchers addressed by the operations that re-derive the
status do satisfy the derivation afterwards — updatePayment, createVoucher
(for fresh SERIAL ids), and the part_014 line-item create/update/delete for
the voucher named by voucher_id (for delete, the owner of the deleted row).
The part_013 line-item controllers and the former owner of a reparented line
item re-derive nothing, so the invariant does not hold for every voucher
after every mutating operation. -/
theorem status_matches_derivation_for_addressed_voucher :
    (∀ db vid amt now, resOkB (updatePayment db vid amt now).res = true →
      statusOkB (updatePayment db vid amt now).db vid = true) ∧
    (∀ db sid dd now, (∀ w ∈ db.fee_vouchers, w.id ≠ db.next_voucher_id) →
      (∀ d ∈ db.fee_voucher_details, d.voucher_id ≠ db.next_voucher_id) →
      statusOkB (createVoucher db sid dd now).db db.next_voucher_id = true) ∧
    (∀ db vid ft amt now,
      resOkB (Part014.createFeeVoucherDetail db vid ft amt now).res = true →
      statusOkB (Part014.createFeeVoucherDetail db vid ft amt now).db vid = true) ∧
    (∀ db id vid ft amt now,
      resOkB (Part014.updateFeeVoucherDetail db id vid ft amt now).res = true →
      statusOkB (Part014.updateFeeVoucherDetail db id vid ft amt now).db vid = true) ∧
    (∀ db id now d0, db.fee_voucher_details.find? (fun d => d.id == id) = some d0 →
      resOkB (Part014.deleteFeeVoucherDetail db id now).res = true →
      statusOkB (Part014.deleteFeeVoucherDetail db id now).db d0.voucher_id = true) := by
  refine ⟨?_, ?_, ?_, ?_, ?_⟩
  · intro db vid amt now hok
    cases hv : findVoucher db.fee_vouchers vid with
    | none =>
      simp only [updatePayment, hv] at hok
      simp [resOkB] at hok
    | some v =>
      exact statusOkB_of_fresh _ _ _ (updatePayment_ok db vid amt now v hv hok).2.1
  · intro db sid dd now hvf hdf
    exact createVoucher_statusOk db sid dd now hvf hdf
  · intro db vid ft amt now hok
    exact statusOkB_of_fresh _ _ _ (createFeeVoucherDetail_ok db vid ft amt now hok).1
  · intro db id vid ft amt now hok
    exact statusOkB_of_fresh _ _ _ (updateFeeVoucherDetail_ok db id vid ft amt now hok).1
  · intro db id now d0 hd hok
    exact statusOkB_of_fresh _ _ _ (deleteFeeVoucherDetail_ok db id now d0 hd hok).1

/-- Witness for the amended C1: a successful payment, a fresh voucher
creation and a successful part_014 line-item insert each leave the addressed
voucher's stored status equal to the derivation. -/
theorem status_matches_derivation_witness :
    statusOkB (updatePayment dbPending100 1 50 7).db 1 = true ∧
    statusOkB (createVoucher dbPaid400 2 dd331 7).db 2 = true ∧
    statusOkB (Part014.createFeeVoucherDetail dbPending100 1 1 50 9).db 1 = true := by
  refine ⟨?_, ?_, ?_⟩
  · exact status_matches_derivation_for_addressed_voucher.1 dbPending100 1 50 7
      (by norm_num [resOkB, updatePayment, payWrite, dbPending100, findVoucher,
        voucherTotal, updateVoucherStatus, deriveStatus])
  · exact status_matches_derivation_for_addressed_voucher.2.1 dbPaid400 2 dd331 7
      (by norm_num [dbPaid400]) (by norm_num [dbPaid400])
  · exact status_matches_derivation_for_addressed_voucher.2.2.1 dbPending100 1 1 50 9
      (by norm_num [resOkB, Part014.createFeeVoucherDetail, insertDetailRow,
        dbPending100, findVoucher, voucherTotal, updateVoucherStatus, deriveStatus])

/-- C4 amended: the part_014 line-item operations re-run the status
derivation against the voucher addressed by voucher_id and persist the
recomputed status and updated_at inside the same BEGIN/COMMIT bracket as the
line-item write; the part_013 versions of the same operations do not. -/
theorem part014_line_item_ops_rederive_status :
    (∀ db vid ft amt now,
      resOkB (Part014.createFeeVoucherDetail db vid ft amt now).res = true →
      statusFreshOkB (Part014.createFeeVoucherDetail db vid ft amt now).db vid now = true ∧
      (Part014.createFeeVoucherDetail db vid ft amt now).ev =
        [Ev.txBegin, Ev.writeDetails, Ev.readDetails, Ev.readVouchers, Ev.writeVouchers,
         Ev.txCommit]) ∧
    (∀ db id vid ft amt now,
      resOkB (Part014.updateFeeVoucherDetail db id vid ft amt now).res = true →
      statusFreshOkB (Part014.updateFeeVoucherDetail db id vid ft amt now).db vid now
        = true ∧
      (Part014.updateFeeVoucherDetail db id vid ft amt now).ev =
        [Ev.txBegin, Ev.writeDetails, Ev.readDetails, Ev.readVouchers, Ev.writeVouchers,
         Ev.txCommit]) ∧
    (∀ db id now d0, db.fee_voucher_details.find? (fun d => d.id == id) = some d0 →
      resOkB (Part014.deleteFeeVoucherDetail db id now).res = true →
      statusFreshOkB (Part014.deleteFeeVoucherDetail db id now).db d0.voucher_id now
        = true ∧
      (Part014.deleteFeeVoucherDetail db id now).ev =
        [Ev.txBegin, Ev.readDetails, Ev.writeDetails, Ev.readDetails, Ev.readVouchers,
         Ev.writeVouchers, Ev.txCommit]) :=
  ⟨fun db vid ft amt now hok => createFeeVoucherDetail_ok db vid ft amt now hok,
   fun db id vid ft amt now hok => updateFeeVoucherDetail_ok db id vid ft amt now hok,
   fun db id now d0 hd hok => deleteFeeVoucherDetail_ok db id now d0 hd hok⟩

/-- Witness for the amended C4: on a concrete voucher, each part_014
line-item operation persists the re-derived status and fresh updated_at
inside one transaction. -/
theorem part014_line_item_ops_rederive_status_witness :
    (statusFreshOkB (Part014.createFeeVoucherDetail dbPending100 1 1 50 9).db 1 9 = true ∧
      (Part014.createFeeVoucherDetail dbPending100 1 1 50 9).ev =
        [Ev.txBegin, Ev.writeDetails, Ev.readDetails, Ev.readVouchers, Ev.writeVouchers,
         Ev.txCommit]) ∧
    (statusFreshOkB (Part014.updateFeeVoucherDetail dbPending100 1 1 1 80 9).db 1 9
        = true ∧
      (Part014.updateFeeVoucherDetail dbPending100 1 1 1 80 9).ev =
        [Ev.txBegin, Ev.writeDetails, Ev.readDetails, Ev.readVouchers, Ev.writeVouchers,
         Ev.txCommit]) ∧
    (statusFreshOkB (Part014.deleteFeeVoucherDetail dbPending100 1 9).db 1 9 = true ∧
      (Part014.deleteFeeVoucherDetail dbPending100 1 9).ev =
        [Ev.txBegin, Ev.readDetails, Ev.writeDetails, Ev.readDetails, Ev.readVouchers,
         Ev.writeVouchers, Ev.txCommit]) := by
  refine ⟨?_, ?_, ?_⟩
  · exact part014_line_item_ops_rederive_status.1 dbPending100 1 1 50 9
      (by norm_num [resOkB, Part014.createFeeVoucherDetail, insertDetailRow,
        dbPending100, findVoucher, voucherTotal, updateVoucherStatus, deriveStatus])
  · exact part014_line_item_ops_rederive_status.2.1 dbPending100 1 1 1 80 9
      (by norm_num [resOkB, Part014.updateFeeVoucherDetail, detailWrite,
        dbPending100, findVoucher, voucherTotal, updateVoucherStatus, deriveStatus])
  · exact part014_line_item_ops_rederive_status.2.2 dbPending100 1 9
      { id := 1, voucher_id := 1, fee_type_id := 1, amount := 100, created_at := 0 }
      rfl
      (by norm_num [resOkB, Part014.deleteFeeVoucherDetail, deleteDetailRow,
        dbPending100, findVoucher, voucherTotal, updateVoucherStatus, deriveStatus])

/-- C5 amended: updatePayment never decreases paid_amount for a non-negative
payment amount (the negative-amount path, which the part_014 variant rejects
up front, is the only way to decrease it). -/
theorem updatePayment_monotone_for_nonneg (db : DB) (vid : Nat) (amt : Rat)
    (now : Nat) (v v2 : Voucher)
    (hamt : 0 ≤ amt)
    (hv : findVoucher db.fee_vouchers vid = some v)
    (hok : resOkB (updatePayment db vid amt now).res = true)
    (hv2 : findVoucher (updatePayment db vid amt now).db.fee_vouchers vid = some v2) :
    v.paid_amount ≤ v2.paid_amount := by
  have h := (updatePayment_ok db vid amt now v hv hok).1
  rw [h] at hv2
  injection hv2 with h4
  rw [← h4]
  show v.paid_amount ≤ v.paid_amount + amt
  linarith

/-- Witness for the amended C5: paying 50 into the voucher with paid_amount
400 yields paid_amount 450, not less than 400. -/
theorem updatePayment_monotone_for_nonneg_witness : (400 : Rat) ≤ 450 :=
  updatePayment_monotone_for_nonneg dbPaid400 1 50 9
    { id := 1, student_id := 1, due_date := dd331, paid_amount := 400,
      status := "partial", updated_at := 0 }
    { id := 1, student_id := 1, due_date := dd331, paid_amount := 450,
      status := "partial", updated_at := 9 }
    (by norm_num) rfl
    (by norm_num [resOkB, updatePayment, payWrite, dbPaid400, findVoucher,
      voucherTotal, updateVoucherStatus, deriveStatus])
    (by norm_num [updatePayment, payWrite, dbPaid400, findVoucher,
      voucherTotal, updateVoucherStatus, deriveStatus, dd331])

/-- C10: part_014's updateFeeVoucherDetail accepts a request whose voucher_id
differs from the line item's current owner, reparenting the item; the status
re-derivation runs only against the voucher named by the new voucher_id —
every other voucher's row, in particular the former owner's, is left
byte-for-byte unchanged — so the former owner's stored status can cease to
satisfy the derivation, as the concrete reparenting below shows ("partial"
stored, "paid" derived). -/
theorem reparenting_skips_former_voucher :
    (∀ db id vid ft amt now wid, wid ≠ vid →
      resOkB (Part014.updateFeeVoucherDetail db id vid ft amt now).res = true →
      findVoucher (Part014.updateFeeVoucherDetail db id vid ft amt now).db.fee_vouchers
        wid = findVoucher db.fee_vouchers wid) ∧
    ((Part014.updateFeeVoucherDetail dbReparent 1 2 1 100 9).res =
      Except.ok { id := 1, voucher_id := 2, fee_type_id := 1, amount := 100,
                  created_at := 9 } ∧
      findVoucher (Part014.updateFeeVoucherDetail dbReparent 1 2 1 100 9).db.fee_vouchers
        1 = some { id := 1, student_id := 1, due_date := dd331, paid_amount := 100,
                   status := "partial", updated_at := 0 } ∧
      deriveStatus
        (voucherTotal
          (Part014.updateFeeVoucherDetail dbReparent 1 2 1 100 9).db.fee_voucher_details
          1) 100 = "paid" ∧
      ("partial" : String) ≠ "paid") := by
  constructor
  · intro db id vid ft amt now wid hw hok
    simp only [Part014.updateFeeVoucherDetail] at hok ⊢
    by_cases hval : vid = 0 ∨ ft = 0 ∨ amt ≤ 0
    · rw [if_pos hval] at hok
      simp [resOkB] at hok
    · rw [if_neg hval] at hok ⊢
      cases hd : db.fee_voucher_details.find? fun d => d.id == id with
      | none =>
        rw [hd] at hok
      | some d0 =>
        rw [hd] at hok
        cases hu : updateVoucherStatus (detailWrite db id vid ft amt now) vid now with
        | none =>
          rw [hu] at hok
        | some db2 =>
          exact (updateVoucherStatus_some _ _ _ _ hu).2.2.2.2.2.1 wid hw
  · exact ⟨by norm_num [Part014.updateFeeVoucherDetail, detailWrite, dbReparent,
        findVoucher, voucherTotal, updateVoucherStatus, deriveStatus],
      by norm_num [Part014.updateFeeVoucherDetail, detailWrite, dbReparent, findVoucher,
        voucherTotal, updateVoucherStatus, deriveStatus, dd331],
      by norm_num [Part014.updateFeeVoucherDetail, detailWrite, dbReparent, findVoucher,
        voucherTotal, updateVoucherStatus, deriveStatus],
      by decide⟩

/-- Witness for C10: reparenting line item 1 from voucher 1 to voucher 2
leaves voucher 1's row exactly as it was. -/
theorem reparenting_skips_former_voucher_witness :
    findVoucher (Part014.updateFeeVoucherDetail dbReparent 1 2 1 100 9).db.fee_vouchers 1
      = findVoucher dbReparent.fee_vouchers 1 :=
  reparenting_skips_former_voucher.1 dbReparent 1 2 1 100 9 1 (by norm_num)
    (by norm_num [resOkB, Part014.updateFeeVoucherDetail, detailWrite, dbReparent,
      findVoucher, voucherTotal, updateVoucherStatus, deriveStatus])

/-! ### C3: idempotence of the monthly generation batch -/

lemma foldl_insertDetail_students (vid now : Nat) (l : List FeeStructure) :
    ∀ acc : DB × List Ev, (l.foldl (insertDetail vid now) acc).1.students = acc.1.students := by
  induction l with
  | nil => intro acc; rfl
  | cons fs l ih =>
    intro acc
    rw [List.foldl_cons, ih]
    rfl

lemma foldl_insertDetail_structures (vid now : Nat) (l : List FeeStructure) :
    ∀ acc : DB × List Ev,
      (l.foldl (insertDetail vid now) acc).1.fee_structures = acc.1.fee_structures := by
  induction l with
  | nil => intro acc; rfl
  | cons fs l ih =>
    intro acc
    rw [List.foldl_cons, ih]
    rfl

lemma foldl_insertDetail_vouchers (vid now : Nat) (l : List FeeStructure) :
    ∀ acc : DB × List Ev,
      (l.foldl (insertDetail vid now) acc).1.fee_vouchers = acc.1.fee_vouchers := by
  induction l with
  | nil => intro acc; rfl
  | cons fs l ih =>
    intro acc
    rw [List.foldl_cons, ih]
    rfl

lemma genStep_students {ay : String} {m y : Nat} {dd : Date} {now : Nat}
    (st : GenState) (s : Student) :
    (genStep ay m y dd now st s).db.students = st.db.students := by
  simp only [genStep]
  split
  · rfl
  · split
    · rfl
    · simp [foldl_insertDetail_students]

lemma genStep_structures {ay : String} {m y : Nat} {dd : Date} {now : Nat}
    (st : GenState) (s : Student) :
    (genStep ay m y dd now st s).db.fee_structures = st.db.fee_structures := by
  simp only [genStep]
  split
  · rfl
  · split
    · rfl
    · simp [foldl_insertDetail_structures]

lemma hasVoucherForPeriod_touch (l : List Voucher) (vid now sid mm yy : Nat) :
    hasVoucherForPeriod
      (l.map fun w => if w.id == vid then { w with updated_at := now } else w) sid mm yy
      = hasVoucherForPeriod l sid mm yy := by
  unfold hasVoucherForPeriod
  induction l with
  | nil => rfl
  | cons a l ih =>
    simp only [List.map_cons, List.any_cons, ih]
    congr 1
    by_cases h : (a.id == vid) = true
    · simp [h]
    · simp [h]

lemma hasVoucherForPeriod_append (l1 l2 : List Voucher) (sid mm yy : Nat) :
    hasVoucherForPeriod (l1 ++ l2) sid mm yy =
      (hasVoucherForPeriod l1 sid mm yy || hasVoucherForPeriod l2 sid mm yy) := by
  unfold hasVoucherForPeriod
  exact List.any_append

lemma genStep_mono {ay : String} {m y : Nat} {dd : Date} {now : Nat}
    (st : GenState) (s : Student) {sid mm yy : Nat}
    (h : hasVoucherForPeriod st.db.fee_vouchers sid mm yy = true) :
    hasVoucherForPeriod (genStep ay m y dd now st s).db.fee_vouchers sid mm yy = true := by
  simp only [genStep]
  split
  · exact h
  · split
    · exact h
    · simp only [hasVoucherForPeriod_touch, foldl_insertDetail_vouchers]
      rw [hasVoucherForPeriod_append]
      simp [h]

lemma genStep_covers {ay : String} {m y : Nat} {dd : Date} {now : Nat}
    (st : GenState) (s : Student)
    (hm : dd.month = m) (hy : dd.year = y)
    (hne : ¬ (monthlyStructuresFor st.db.fee_structures s.class_id ay).isEmpty = true) :
    hasVoucherForPeriod (genStep ay m y dd now st s).db.fee_vouchers s.id m y = true := by
  simp only [genStep]
  rw [if_neg hne]
  by_cases h2 : hasVoucherForPeriod st.db.fee_vouchers s.id m y = true
  · rw [if_pos h2]
    exact h2
  · rw [if_neg h2]
    simp only [hasVoucherForPeriod_touch, foldl_insertDetail_vouchers]
    rw [hasVoucherForPeriod_append]
    simp [hasVoucherForPeriod, hm, hy]

lemma genStep_skip {ay : String} {m y : Nat} (dd : Date) (now : Nat)
    (st : GenState) (s : Student)
    (h : (monthlyStructuresFor st.db.fee_structures s.class_id ay).isEmpty = true ∨
      hasVoucherForPeriod st.db.fee_vouchers s.id m y = true) :
    (genStep ay m y dd now st s).db = st.db := by
  simp only [genStep]
  by_cases h1 : (monthlyStructuresFor st.db.fee_structures s.class_id ay).isEmpty = true
  · rw [if_pos h1]
  · rcases h with h | h
    · exact absurd h h1
    · rw [if_neg h1, if_pos h]

lemma foldl_genStep_students {ay : String} {m y : Nat} {dd : Date} {now : Nat}
    (ss : List Student) :
    ∀ st : GenState,
      ((ss.foldl (genStep ay m y dd now) st).db).students = st.db.students := by
  induction ss with
  | nil => intro st; rfl
  | cons s ss ih => intro st; rw [List.foldl_cons, ih, genStep_students]

lemma foldl_genStep_structures {ay : String} {m y : Nat} {dd : Date} {now : Nat}
    (ss : List Student) :
    ∀ st : GenState,
      ((ss.foldl (genStep ay m y dd now) st).db).fee_structures = st.db.fee_structures := by
  induction ss with
  | nil => intro st; rfl
  | cons s ss ih => intro st; rw [List.foldl_cons, ih, genStep_structures]

lemma foldl_genStep_mono {ay : String} {m y : Nat} {dd : Date} {now : Nat}
    (ss : List Student) {sid mm yy : Nat} :
    ∀ st : GenState, hasVoucherForPeriod st.db.fee_vouchers sid mm yy = true →
      hasVoucherForPeriod ((ss.foldl (genStep ay m y dd now) st).db).fee_vouchers sid mm yy
        = true := by
  induction ss with
  | nil => intro st h; exact h
  | cons s ss ih =>
    intro st h
    rw [List.foldl_cons]
    exact ih _ (genStep_mono st s h)

lemma foldl_genStep_covers {ay : String} {m y : Nat} {dd : Date} {now : Nat}
    (hm : dd.month = m) (hy : dd.year = y) (ss : List Student) :
    ∀ (st : GenState) (s : Student), s ∈ ss →
      ¬ (monthlyStructuresFor st.db.fee_structures s.class_id ay).isEmpty = true →
      hasVoucherForPeriod ((ss.foldl (genStep ay m y dd now) st).db).fee_vouchers s.id m y
        = true := by
  induction ss with
  | nil => intro st s h; cases h
  | cons a ss ih =>
    intro st s hmem hne
    rw [List.foldl_cons]
    rcases List.mem_cons.mp hmem with heq | hmem2
    · subst heq
      exact foldl_genStep_mono ss _ (genStep_covers st s hm hy hne)
    · refine ih _ s hmem2 ?_
      rw [genStep_structures]
      exact hne

lemma foldl_genStep_fix {ay : String} {m y : Nat} {dd : Date} {now : Nat}
    (ss : List Student) :
    ∀ st : GenState,
      (∀ s ∈ ss,
        (monthlyStructuresFor st.db.fee_structures s.class_id ay).isEmpty = true ∨
        hasVoucherForPeriod st.db.fee_vouchers s.id m y = true) →
      ((ss.foldl (genStep ay m y dd now) st).db) = st.db := by
  induction ss with
  | nil => intro st _; rfl
  | cons a ss ih =>
    intro st h
    rw [List.foldl_cons]
    have hsk := genStep_skip dd now st a (h a (List.mem_cons_self a ss))
    have h2 : ∀ s ∈ ss,
        (monthlyStructuresFor (genStep ay m y dd now st a).db.fee_structures
          s.class_id ay).isEmpty = true ∨
        hasVoucherForPeriod (genStep ay m y dd now st a).db.fee_vouchers s.id m y
          = true := by
      intro s hs
      rw [hsk]
      exact h s (List.mem_cons_of_mem a hs)
    rw [ih _ h2, hsk]

/-- Running the per-student loop a second time (with any clock) over the
state produced by a first run changes nothing: every student either has no
monthly structures or — by the first run or before it — already has a voucher
for the period. -/
lemma foldl_genStep_twice {ay : String} {m y : Nat} {dd : Date}
    (hm : dd.month = m) (hy : dd.year = y)
    (ss : List Student) (st0 : GenState) (now1 now2 : Nat)
    (o : List GenVoucher) (e : List Ev) :
    ((ss.foldl (genStep ay m y dd now2)
      ⟨((ss.foldl (genStep ay m y dd now1) st0).db), o, e⟩).db) =
      ((ss.foldl (genStep ay m y dd now1) st0).db) := by
  apply foldl_genStep_fix
  intro s hs
  by_cases hstr : (monthlyStructuresFor st0.db.fee_structures s.class_id ay).isEmpty = true
  · left
    show (monthlyStructuresFor ((ss.foldl (genStep ay m y dd now1) st0).db).fee_structures
      s.class_id ay).isEmpty = true
    rw [foldl_genStep_structures]
    exact hstr
  · right
    show hasVoucherForPeriod ((ss.foldl (genStep ay m y dd now1) st0).db).fee_vouchers
      s.id m y = true
    exact foldl_genStep_covers hm hy ss st0 s hs hstr

/-- C3: generateMonthlyFees is idempotent — running it a second time with the
same academic year, month and class filter, from the state the first run
produced, leaves the database exactly as the first run left it: no voucher
and no line item is created for any student already covered. -/
theorem generateMonthlyFees_idempotent (db : DB) (cid : Option Nat) (ay : String)
    (m n1 n2 : Nat) :
    (generateMonthlyFees (generateMonthlyFees db cid ay m n1).db cid ay m n2).db =
      (generateMonthlyFees db cid ay m n1).db := by
  by_cases h1 : ay = "" ∨ m = 0
  · simp only [generateMonthlyFees, if_pos h1]
  · by_cases h2 : validAcademicYear ay
    · by_cases h3 : m < 1 ∨ 12 < m
      · simp only [generateMonthlyFees, if_neg h1, h2, Bool.not_true, Bool.false_eq_true,
          if_false, if_pos h3]
      · simp only [generateMonthlyFees, if_neg h1, h2, Bool.not_true, Bool.false_eq_true,
          if_false, if_neg h3]
        cases cid with
        | none =>
          by_cases hel : db.students.isEmpty = true
          · simp [hel]
          · simp only [hel, foldl_genStep_students, Bool.false_eq_true, if_false]
            refine foldl_genStep_twice ?_ ?_ _ _ _ _ _ _ <;> rfl
        | some c =>
          by_cases hel : (db.students.filter fun s => s.class_id == c).isEmpty = true
          · simp [hel]
          · simp only [hel, foldl_genStep_students, Bool.false_eq_true, if_false]
            refine foldl_genStep_twice ?_ ?_ _ _ _ _ _ _ <;> rfl
    · simp only [generateMonthlyFees, if_neg h1, eq_false_of_ne_true h2, Bool.not_false,
        if_true]
